import Mathlib

/-!
Verification of the Sensor-Logger pipeline (Go) against its specification.

The Go source is shallowly embedded: Go `int`/`int64` become `ℤ`, `uint64`
becomes `ℕ`, `float64` values are modelled by the exact rational they denote
(`ℚ`), byte slices become `List ℕ`, and the effectful parts (channels, the
fusion cells, the file system, buffered writers) become explicit state passing
over small state types.  Each definition is translated from the corresponding
Go function and keeps its name where Lean allows.
-/

namespace SensorLogger

/-! ### Formatting helpers — models/helpers.go

`itoa`, `itoa64`, `utoa64` wrap `strconv.Itoa` / `FormatInt` / `FormatUint`
(base-10, no padding); `ftoa` wraps `strconv.FormatFloat(v, 'f', prec, 64)`,
which renders a fixed-point decimal with exactly `prec` digits after the
point.  Decimal digits are rendered explicitly through `Nat.digits` so the
shape of the output string is provable; the rounding of the scaled value is
modelled with `round` (the tie-breaking direction of the Go converter is
immaterial to every claim below). -/

/-- Most-significant-digit-first base-10 digits of a natural number. -/
def natDigitsMSD (n : ℕ) : List ℕ := (Nat.digits 10 n).reverse

/-- Base-10 rendering of a natural number, as produced by `strconv`. -/
def natRepr (n : ℕ) : String :=
  if n = 0 then "0" else String.mk ((natDigitsMSD n).map Nat.digitChar)

/-- Base-10 rendering of an integer: optional minus sign, then digits. -/
def intRepr (v : ℤ) : String :=
  if v < 0 then "-" ++ natRepr v.natAbs else natRepr v.natAbs

/-- Go `itoa(v int)` — `strconv.Itoa`. -/
def itoa (v : ℤ) : String := intRepr v

/-- Go `itoa64(v int64)` — `strconv.FormatInt(v, 10)`. -/
def itoa64 (v : ℤ) : String := intRepr v

/-- Go `utoa64(v uint64)` — `strconv.FormatUint(v, 10)`. -/
def utoa64 (v : ℕ) : String := natRepr v

/-- The `p` fractional digits (most significant first) of `m < 10^p`. -/
def fracDigits (m p : ℕ) : List ℕ :=
  (List.range p).map (fun i => m / 10 ^ (p - 1 - i) % 10)

/-- Go `ftoa(v float64, prec int)` — `strconv.FormatFloat(v, 'f', prec, 64)`:
fixed-point decimal with exactly `prec` digits after the decimal point. -/
def ftoa (v : ℚ) (prec : ℕ) : String :=
  let n : ℤ := round (v * (10 : ℚ) ^ prec)
  let sign : String := if n < 0 then "-" else ""
  let m : ℕ := n.natAbs
  if prec = 0 then sign ++ natRepr m
  else
    sign ++ natRepr (m / 10 ^ prec) ++ "." ++
      String.mk ((fracDigits (m % 10 ^ prec) prec).map Nat.digitChar)

/-! ### Record models — models/*.go -/

/-- models/camera_frame.go `CameraFrame`. -/
structure CameraFrame where
  TimestampNs : ℤ
  FrameID : ℕ
  Width : ℤ
  Height : ℤ
  Format : String
  FilePath : String
  SizeBytes : ℤ
  JPEG : List ℕ
  deriving Repr, DecidableEq

def CameraFrame.CSVHeader : List String :=
  ["timestamp_ns", "frame_id", "width", "height",
   "format", "file_path", "size_bytes"]

def CameraFrame.CSVRow (f : CameraFrame) : List String :=
  [itoa64 f.TimestampNs, utoa64 f.FrameID, itoa f.Width, itoa f.Height,
   f.Format, f.FilePath, itoa f.SizeBytes]

/-- models/lidar_packet.go `LidarPacket`. -/
structure LidarPacket where
  TimestampNs : ℤ
  PacketID : ℕ
  NumPoints : ℤ
  Model : String
  RotationDeg : ℚ
  CloudFilePath : String
  SizeBytes : ℤ
  RawCloud : List ℕ
  deriving Repr, DecidableEq

def LidarPacket.CSVHeader : List String :=
  ["timestamp_ns", "packet_id", "num_points", "model",
   "rotation_deg", "cloud_file_path", "size_bytes"]

def LidarPacket.CSVRow (l : LidarPacket) : List String :=
  [itoa64 l.TimestampNs, utoa64 l.PacketID, itoa l.NumPoints, l.Model,
   ftoa l.RotationDeg 2, l.CloudFilePath, itoa l.SizeBytes]

/-- models/gps_data.go `GPSData`. -/
structure GPSData where
  TimestampNs : ℤ
  Latitude : ℚ
  Longitude : ℚ
  Altitude : ℚ
  Speed : ℚ
  Heading : ℚ
  HDOP : ℚ
  FixQuality : ℤ
  NumSats : ℤ
  deriving Repr, DecidableEq

def GPSData.CSVHeader : List String :=
  ["timestamp_ns", "latitude", "longitude", "altitude",
   "speed", "heading", "hdop", "fix_quality", "num_sats"]

def GPSData.CSVRow (g : GPSData) : List String :=
  [itoa64 g.TimestampNs,
   ftoa g.Latitude 9, ftoa g.Longitude 9, ftoa g.Altitude 3,
   ftoa g.Speed 4, ftoa g.Heading 2, ftoa g.HDOP 2,
   itoa g.FixQuality, itoa g.NumSats]

/-- models/imu_data.go `IMUData`. -/
structure IMUData where
  TimestampNs : ℤ
  AccelX : ℚ
  AccelY : ℚ
  AccelZ : ℚ
  GyroX : ℚ
  GyroY : ℚ
  GyroZ : ℚ
  MagX : ℚ
  MagY : ℚ
  MagZ : ℚ
  Temperature : ℚ
  deriving Repr, DecidableEq

def IMUData.CSVHeader : List String :=
  ["timestamp_ns",
   "accel_x", "accel_y", "accel_z",
   "gyro_x", "gyro_y", "gyro_z",
   "mag_x", "mag_y", "mag_z",
   "temperature"]

def IMUData.CSVRow (d : IMUData) : List String :=
  [itoa64 d.TimestampNs,
   ftoa d.AccelX 6, ftoa d.AccelY 6, ftoa d.AccelZ 6,
   ftoa d.GyroX 6, ftoa d.GyroY 6, ftoa d.GyroZ 6,
   ftoa d.MagX 4, ftoa d.MagY 4, ftoa d.MagZ 4,
   ftoa d.Temperature 2]

/-- models/radar_target.go `RadarTarget`. -/
structure RadarTarget where
  TimestampNs : ℤ
  TargetID : ℤ
  Range : ℚ
  Azimuth : ℚ
  Elevation : ℚ
  Velocity : ℚ
  RCS : ℚ
  deriving Repr, DecidableEq

def RadarTarget.CSVHeader : List String :=
  ["timestamp_ns", "target_id", "range", "azimuth",
   "elevation", "velocity", "rcs"]

def RadarTarget.CSVRow (r : RadarTarget) : List String :=
  [itoa64 r.TimestampNs, itoa r.TargetID,
   ftoa r.Range 3, ftoa r.Azimuth 2, ftoa r.Elevation 2,
   ftoa r.Velocity 3, ftoa r.RCS 2]

/-- models/fused_record.go `FusedRecord` — nullable component references
become `Option`. -/
structure FusedRecord where
  TimestampNs : ℤ
  Camera : Option CameraFrame
  Lidar : Option LidarPacket
  GPS : Option GPSData
  IMU : Option IMUData
  Radar : Option RadarTarget
  deriving Repr, DecidableEq

/-- models/fused_record.go `FusedRecord.CSVHeader` — built by the same
block-wise appends as the source. -/
def FusedRecord.CSVHeader : List String :=
  ["timestamp_ns"]
  ++ ["cam_frame_id", "cam_file_path", "cam_width", "cam_height"]
  ++ ["lidar_packet_id", "lidar_num_points", "lidar_cloud_path"]
  ++ ["gps_lat", "gps_lon", "gps_alt", "gps_speed", "gps_heading"]
  ++ ["imu_ax", "imu_ay", "imu_az", "imu_gx", "imu_gy", "imu_gz"]
  ++ ["radar_range", "radar_azimuth", "radar_velocity"]

/-- models/fused_record.go `FusedRecord.CSVRow` — empty strings for missing
sensors. -/
def FusedRecord.CSVRow (f : FusedRecord) : List String :=
  [itoa64 f.TimestampNs]
  ++ (match f.Camera with
      | some c => [utoa64 c.FrameID, c.FilePath, itoa c.Width, itoa c.Height]
      | none => ["", "", "", ""])
  ++ (match f.Lidar with
      | some l => [utoa64 l.PacketID, itoa l.NumPoints, l.CloudFilePath]
      | none => ["", "", ""])
  ++ (match f.GPS with
      | some g => [ftoa g.Latitude 9, ftoa g.Longitude 9, ftoa g.Altitude 3,
                   ftoa g.Speed 4, ftoa g.Heading 2]
      | none => ["", "", "", "", ""])
  ++ (match f.IMU with
      | some d => [ftoa d.AccelX 6, ftoa d.AccelY 6, ftoa d.AccelZ 6,
                   ftoa d.GyroX 6, ftoa d.GyroY 6, ftoa d.GyroZ 6]
      | none => ["", "", "", "", "", ""])
  ++ (match f.Radar with
      | some r => [ftoa r.Range 3, ftoa r.Azimuth 2, ftoa r.Velocity 3]
      | none => ["", "", ""])

/-! ### CSV schema — views/csv_schema.go -/

/-- views/csv_schema.go `SensorType`. -/
inductive SensorType where
  | SensorCamera
  | SensorLidar
  | SensorGPS
  | SensorIMU
  | SensorRadar
  | SensorFused
  deriving Repr, DecidableEq

/-- views/csv_schema.go `SchemaColumns` — the canonical column list for a
sensor. -/
def SchemaColumns : SensorType → List String
  | .SensorCamera =>
      ["timestamp_ns", "frame_id", "width", "height",
       "format", "file_path", "size_bytes"]
  | .SensorLidar =>
      ["timestamp_ns", "packet_id", "num_points", "model",
       "rotation_deg", "cloud_file_path", "size_bytes"]
  | .SensorGPS =>
      ["timestamp_ns", "latitude", "longitude", "altitude",
       "speed", "heading", "hdop", "fix_quality", "num_sats"]
  | .SensorIMU =>
      ["timestamp_ns",
       "accel_x", "accel_y", "accel_z",
       "gyro_x", "gyro_y", "gyro_z",
       "mag_x", "mag_y", "mag_z",
       "temperature"]
  | .SensorRadar =>
      ["timestamp_ns", "target_id", "range", "azimuth",
       "elevation", "velocity", "rcs"]
  | .SensorFused =>
      ["timestamp_ns",
       "cam_frame_id", "cam_file_path", "cam_width", "cam_height",
       "lidar_packet_id", "lidar_num_points", "lidar_cloud_path",
       "gps_lat", "gps_lon", "gps_alt", "gps_speed", "gps_heading",
       "imu_ax", "imu_ay", "imu_az", "imu_gx", "imu_gy", "imu_gz",
       "radar_range", "radar_azimuth", "radar_velocity"]

/-! ### Fusion controller — controller/fusion_controller.go

The five latest-value cells, their drain goroutines and the merge tick are
modelled as a state machine over interleaved events.  A `drain` event is a
drain goroutine storing one received record into its sensor's cell under the
mutex; a `tick` event is one iteration of the merge goroutine: under the
mutex it snapshots all five cells into a `FusedRecord` and clears all five
cells, then attempts a non-blocking send of the snapshot on `Out` (`sent =
false` models the output channel being full, in which case the record is
dropped).  Samples are represented by an abstract type `α` with decidable
equality, standing for the per-sensor record values. -/

/-- The five sensors owning a latest-value cell in `FusionController`. -/
inductive Sensor where
  | camera
  | lidar
  | gps
  | imu
  | radar
  deriving Repr, DecidableEq

/-- The mutex-protected mutable state of `FusionController` (the five
`latest*` cells) plus the history of fused records emitted on `Out`.  A
fused snapshot is modelled as the contents of all five cells, indexed by
sensor. -/
structure FusionState (α : Type) where
  cells : Sensor → Option α
  emitted : List (Sensor → Option α)

/-- An event interleaved on the cells mutex. -/
inductive FusionEvent (α : Type) where
  | drain (s : Sensor) (x : α)
  | tick (sent : Bool)
  deriving DecidableEq

/-- Initial fusion state: all cells nil, nothing emitted. -/
def fusionInit (α : Type) : FusionState α :=
  { cells := fun _ => none, emitted := [] }

/-- One event of `FusionController`: a drain goroutine's cell assignment
(latest-wins overwrite), or one merge tick (snapshot all five cells, clear
all five cells, then non-blocking send). -/
def fusionStep (st : FusionState α) : FusionEvent α → FusionState α
  | .drain s x =>
      { st with cells := fun s' => if s' = s then some x else st.cells s' }
  | .tick sent =>
      let snap := st.cells
      { cells := fun _ => none,
        emitted := if sent then st.emitted ++ [snap] else st.emitted }

/-- Run the fusion controller over a whole event trace. -/
def fusionRun (t : List (FusionEvent α)) : FusionState α :=
  t.foldl fusionStep (fusionInit α)

/-- Number of emitted fused records that include sample `x` as their
component for sensor `s`. -/
def includedCount [DecidableEq α] (st : FusionState α) (s : Sensor) (x : α) : ℕ :=
  (st.emitted.filter (fun r => decide (r s = some x))).length

/-- 1 when cell `s` currently holds sample `x`, else 0. -/
def cellHolds [DecidableEq α] (st : FusionState α) (s : Sensor) (x : α) : ℕ :=
  if st.cells s = some x then 1 else 0

/-- Number of times the trace drains sample `x` into sensor `s`'s cell. -/
def drainCount [DecidableEq α] (t : List (FusionEvent α)) (s : Sensor) (x : α) : ℕ :=
  (t.filter (fun e => decide (e = .drain s x))).length

/-! ### Producer non-blocking send — services/ingest/<sensor>_reader.go

Every reader's `run` loop ends each tick with the same Go pattern:

    select { case r.Out <- rec: produced++ ; default: dropped++ }

The bounded output channel is a `List` with explicit capacity; the counters
are the reader's `produced` / `dropped` fields. -/

/-- The observable state of one sensor reader: its bounded output queue and
its two atomic counters. -/
structure ProducerState (α : Type) where
  queue : List α
  produced : ℕ
  dropped : ℕ
  deriving Repr, DecidableEq

/-- The shared non-blocking send of all five readers: enqueue and count
`produced` when the channel has free space, otherwise discard the record and
count `dropped`. -/
def nonBlockingSend (cap : ℕ) (st : ProducerState α) (rec : α) : ProducerState α :=
  if st.queue.length < cap then
    { st with queue := st.queue ++ [rec], produced := st.produced + 1 }
  else
    { st with dropped := st.dropped + 1 }

/-! ### Reader record creation — identifier sequences

Each reader's `run` keeps a local sequence counter (`var seq uint64` for
camera and lidar, `var id int` for radar) starting at the Go zero value 0,
creates one record per tick passing the counter, and increments it once per
created record — whether or not the subsequent send succeeds.  Timestamps
and the `rand` draws are abstracted as per-tick input streams, since they do
not affect identifier assignment. -/

/-- `CameraReader.capture(seq)`: simulated branch fills an 80–120 KB JPEG
whose first two bytes are the SOI marker; the real-device stub only fills
timestamp and configured dimensions.  `sz` abstracts the random size draw. -/
def cameraCapture (width height : ℤ) (format : String) (sim : Bool)
    (ts : ℤ) (sz : ℕ) (seq : ℕ) : CameraFrame :=
  if sim then
    { TimestampNs := ts, FrameID := seq, Width := width, Height := height,
      Format := format, FilePath := "", SizeBytes := (sz : ℤ),
      JPEG := ((List.replicate sz 0).set 0 0xFF).set 1 0xD8 }
  else
    { TimestampNs := ts, FrameID := seq, Width := width, Height := height,
      Format := format, FilePath := "", SizeBytes := 0, JPEG := [] }

/-- The records created by `CameraReader.run` across `n` ticks, carrying the
local `seq` counter (starts at `seq`, incremented once per created frame). -/
def cameraCreated (width height : ℤ) (format : String) (sim : Bool)
    (tss : ℕ → ℤ) (szs : ℕ → ℕ) : ℕ → ℕ → List CameraFrame
  | _, 0 => []
  | seq, n + 1 =>
      cameraCapture width height format sim (tss seq) (szs seq) seq ::
        cameraCreated width height format sim tss szs (seq + 1) n

/-- `LidarReader.readPacket(seq)`: `nPts` abstracts the random point-count
draw; rotation is `math.Mod(seq * 0.48, 360)`. -/
def lidarReadPacket (model : String) (sim : Bool)
    (ts : ℤ) (nPts : ℤ) (seq : ℕ) : LidarPacket :=
  if sim then
    { TimestampNs := ts, PacketID := seq, NumPoints := nPts, Model := model,
      RotationDeg :=
        (seq : ℚ) * (12 / 25) - 360 * ⌊(seq : ℚ) * (12 / 25) / 360⌋,
      CloudFilePath := "", SizeBytes := nPts * 16,
      RawCloud := List.replicate (nPts * 16).toNat 0 }
  else
    { TimestampNs := ts, PacketID := seq, NumPoints := 0, Model := model,
      RotationDeg := 0, CloudFilePath := "", SizeBytes := 0, RawCloud := [] }

/-- The packets created by `LidarReader.run` across `n` ticks. -/
def lidarCreated (model : String) (sim : Bool)
    (tss : ℕ → ℤ) (npts : ℕ → ℤ) : ℕ → ℕ → List LidarPacket
  | _, 0 => []
  | seq, n + 1 =>
      lidarReadPacket model sim (tss seq) (npts seq) seq ::
        lidarCreated model sim tss npts (seq + 1) n

/-- `RadarReader.readTarget(id)`: the five random draws are abstracted as
inputs. -/
def radarReadTarget (sim : Bool) (ts : ℤ)
    (rng az el vel rcs : ℚ) (id : ℤ) : RadarTarget :=
  if sim then
    { TimestampNs := ts, TargetID := id, Range := rng, Azimuth := az,
      Elevation := el, Velocity := vel, RCS := rcs }
  else
    { TimestampNs := ts, TargetID := id, Range := 0, Azimuth := 0,
      Elevation := 0, Velocity := 0, RCS := 0 }

/-- The targets created by `RadarReader.run` across `n` ticks, carrying the
local `id` counter. -/
def radarCreated (sim : Bool) (tss : ℕ → ℤ) (draws : ℕ → ℚ × ℚ × ℚ × ℚ × ℚ) :
    ℕ → ℕ → List RadarTarget
  | _, 0 => []
  | id, n + 1 =>
      (let d := draws id
       radarReadTarget sim (tss id) d.1 d.2.1 d.2.2.1 d.2.2.2.1 d.2.2.2.2
         (id : ℤ)) ::
        radarCreated sim tss draws (id + 1) n

/-! ### CSV writer — views/data_export.go

`CSVWriter` layers three byte stores: the `encoding/csv` writer's internal
buffer (filled by `csv.Write`, emptied into the `bufio.Writer` by
`csv.Flush`), the `bufio.Writer` buffer (emptied into the file by
`buf.Flush`), and the file itself.  Buffers are modelled as unbounded byte
strings (the spill of a full buffer only moves bytes one layer down earlier,
which no claim depends on).  The CSV encoder may fail; `WriteRow` discards
its error (`_ = w.csv.Write(row)`), so encoding is abstracted as a function
`enc` returning `none` on failure, in which case no bytes are appended. -/

/-- The state guarded by the `CSVWriter` mutex. -/
structure CSVWriterState where
  csvBuf : String
  outBuf : String
  fileData : String
  rows : ℕ
  deriving Repr, DecidableEq

/-- `NewCSVWriter` after `os.Create` (file truncated to empty): writes the
header row through the CSV encoder if requested and the header is non-empty;
the row counter starts at 0 — the header is never counted. -/
def NewCSVWriter (enc : List String → Option String)
    (writeHeader : Bool) (header : List String) : CSVWriterState :=
  { csvBuf :=
      if writeHeader ∧ header ≠ [] then (enc header).getD "" else "",
    outBuf := "", fileData := "", rows := 0 }

/-- `CSVWriter.WriteRow`: encode one row (error discarded), then increment
the row counter unconditionally. -/
def CSVWriter.WriteRow (enc : List String → Option String)
    (w : CSVWriterState) (row : List String) : CSVWriterState :=
  let w :=
    match enc row with
    | some bs => { w with csvBuf := w.csvBuf ++ bs }
    | none => w
  { w with rows := w.rows + 1 }

/-- `CSVWriter.Flush`: `csv.Flush()` moves the encoder's buffered bytes into
the `bufio.Writer`, then `buf.Flush()` moves the `bufio` bytes to the OS
file. -/
def CSVWriter.Flush (w : CSVWriterState) : CSVWriterState :=
  let w1 := { w with outBuf := w.outBuf ++ w.csvBuf, csvBuf := "" }
  { w1 with fileData := w1.fileData ++ w1.outBuf, outBuf := "" }

/-- `CSVWriter.Rows`: the data-row counter. -/
def CSVWriter.Rows (w : CSVWriterState) : ℕ := w.rows

/-! ### Recording controller bring-up — controller/recording_controller.go

`NewRecordingController` touches the file system in a fixed order: the
overwrite guard (`os.Stat`), `os.MkdirAll(sessionDir)`, `os.Create` of
`fused.csv`, then per-sensor CSVs and optionally the frames directory.  The
file system is a list of existing paths plus a log of the mutating
operations performed during the call; `MkdirAll` and `os.Create` are
modelled as succeeding (their I/O failures abort bring-up in Go but are not
the subject of any claim).  The time-derived session name (`SessionName`) is
passed in as `sess`. -/

/-- A model file system: the set of existing paths and the mutating
operations (directory creations, file create/truncate) performed so far. -/
structure FS where
  paths : List String
  mutations : List String
  deriving Repr, DecidableEq

/-- `os.Stat(p); err == nil` — the path exists. -/
def FS.exists (fs : FS) (p : String) : Bool := fs.paths.contains p

/-- `os.MkdirAll(p, 0755)` — creates the directory, records the mutation. -/
def FS.mkdirAll (fs : FS) (p : String) : FS :=
  { paths := fs.paths ++ [p], mutations := fs.mutations ++ ["mkdir " ++ p] }

/-- `os.Create(p)` — creates or truncates the file, records the mutation. -/
def FS.create (fs : FS) (p : String) : FS :=
  { paths := fs.paths ++ [p], mutations := fs.mutations ++ ["create " ++ p] }

/-- Enabled flags of the five sensors (sensors config). -/
structure SensorsEnabled where
  camera : Bool
  lidar : Bool
  gps : Bool
  imu : Bool
  radar : Bool
  deriving Repr, DecidableEq

/-- The storage configuration fields consumed by bring-up. -/
structure StorageCfg where
  baseDir : String
  overwrite : Bool
  bufferSizeKB : ℤ
  writeHeader : Bool
  framesSavePath : String
  saveFramesCfg : Bool
  deriving Repr, DecidableEq

/-- The controller fields set up by bring-up that later claims read
(`savePath` stands for the retained `storageCfg.Storage.Frames.SavePath`). -/
structure RecCtrl where
  sessionDir : String
  saveFrames : Bool
  framesDir : String
  savePath : String
  deriving Repr, DecidableEq

/-- `NewRecordingController`: overwrite guard first, then directory and CSV
creation in source order.  Returns the error or the controller, along with
the file system as left by the call. -/
def NewRecordingController (fs : FS) (st : StorageCfg) (sens : SensorsEnabled)
    (sess : String) : Except String RecCtrl × FS :=
  let sessionDir := st.baseDir ++ "/" ++ sess
  if !st.overwrite ∧ fs.exists sessionDir then
    (.error ("session dir " ++ sessionDir ++
      " already exists (overwrite=false)"), fs)
  else
    let fs := fs.mkdirAll sessionDir
    let fs := fs.create (sessionDir ++ "/fused.csv")
    let (fs, rc) :=
      if sens.camera then
        let fs := fs.create (sessionDir ++ "/camera.csv")
        if st.saveFramesCfg then
          let framesDir := sessionDir ++ "/" ++ st.framesSavePath
          (fs.mkdirAll framesDir,
           RecCtrl.mk sessionDir true framesDir st.framesSavePath)
        else (fs, RecCtrl.mk sessionDir false "" st.framesSavePath)
      else (fs, RecCtrl.mk sessionDir false "" st.framesSavePath)
    let fs := if sens.lidar then fs.create (sessionDir ++ "/lidar.csv") else fs
    let fs := if sens.gps then fs.create (sessionDir ++ "/gps.csv") else fs
    let fs := if sens.imu then fs.create (sessionDir ++ "/imu.csv") else fs
    let fs := if sens.radar then fs.create (sessionDir ++ "/radar.csv") else fs
    (.ok rc, fs)

/-! ### Recording controller write path — `writeRecord`

The rows appended to each open CSV writer, the fire-and-forget frame saves
and the `rowsWritten` counter are the observable effects of one
`writeRecord` call.  Which writers exist is determined by the enabled flags
(a disabled sensor's writer is nil). -/

/-- Observable output state of the recording controller's writer goroutine:
rows appended per CSV, pending frame-save tasks, and `rowsWritten`. -/
structure RecOut where
  fusedRows : List (List String)
  cameraRows : List (List String)
  lidarRows : List (List String)
  gpsRows : List (List String)
  imuRows : List (List String)
  radarRows : List (List String)
  frameSaves : List (String × List ℕ)
  rowsWritten : ℕ
  deriving Repr, DecidableEq

/-- The camera block of `writeRecord`: if the camera component is non-nil
and the camera writer exists, optionally assign `Camera.FilePath` and spawn
the fire-and-forget frame save, then write the camera row.  Returns the
output state and the record as mutated by the `FilePath` assignment. -/
def writeCameraPart (rc : RecCtrl) (sens : SensorsEnabled) (o : RecOut)
    (r : FusedRecord) : RecOut × FusedRecord :=
  match r.Camera with
  | some cam =>
      if sens.camera then
        let (o, cam) :=
          if rc.saveFrames ∧ cam.JPEG.length > 0 then
            let fname := itoa64 cam.TimestampNs ++ ".jpg"
            let fpath := rc.framesDir ++ "/" ++ fname
            let cam := { cam with FilePath := rc.savePath ++ "/" ++ fname }
            ({ o with frameSaves := o.frameSaves ++ [(fpath, cam.JPEG)] },
             cam)
          else (o, cam)
        ({ o with cameraRows := o.cameraRows ++ [cam.CSVRow] },
         { r with Camera := some cam })
      else (o, r)
  | none => (o, r)

/-- The lidar block of `writeRecord`. -/
def writeLidarPart (sens : SensorsEnabled) (o : RecOut) (r : FusedRecord) :
    RecOut :=
  match r.Lidar with
  | some l => if sens.lidar then
      { o with lidarRows := o.lidarRows ++ [l.CSVRow] } else o
  | none => o

/-- The gps block of `writeRecord`. -/
def writeGPSPart (sens : SensorsEnabled) (o : RecOut) (r : FusedRecord) :
    RecOut :=
  match r.GPS with
  | some g => if sens.gps then
      { o with gpsRows := o.gpsRows ++ [g.CSVRow] } else o
  | none => o

/-- The imu block of `writeRecord`. -/
def writeIMUPart (sens : SensorsEnabled) (o : RecOut) (r : FusedRecord) :
    RecOut :=
  match r.IMU with
  | some d => if sens.imu then
      { o with imuRows := o.imuRows ++ [d.CSVRow] } else o
  | none => o

/-- The radar block of `writeRecord`. -/
def writeRadarPart (sens : SensorsEnabled) (o : RecOut) (r : FusedRecord) :
    RecOut :=
  match r.Radar with
  | some t => if sens.radar then
      { o with radarRows := o.radarRows ++ [t.CSVRow] } else o
  | none => o

/-- `RecordingController.writeRecord`, in source order: (1) fused CSV row
from the record as received; (2) the camera block (optional `FilePath`
assignment and frame save, then the camera row); (3) the other four
per-sensor rows; (4) increment `rowsWritten`. -/
def writeRecord (rc : RecCtrl) (sens : SensorsEnabled) (o : RecOut)
    (r : FusedRecord) : RecOut × FusedRecord :=
  let o1 := { o with fusedRows := o.fusedRows ++ [r.CSVRow] }
  let p := writeCameraPart rc sens o1 r
  let o2 := writeLidarPart sens p.1 p.2
  let o3 := writeGPSPart sens o2 p.2
  let o4 := writeIMUPart sens o3 p.2
  let o5 := writeRadarPart sens o4 p.2
  ({ o5 with rowsWritten := o5.rowsWritten + 1 }, p.2)

/-! ### Output-format predicates

Vocabulary for the numeric-formatting claims: a string is a fixed-point
decimal with precision `p` when it splits as a dot-free part, a decimal
point and exactly `p` digits; it is a plainly rendered integer when it is
an optional minus sign followed by a non-empty digit run with no leading
zero (no padding). -/

/-- `s` is a fixed-point decimal with exactly `p` digits after the point. -/
def isFixedPoint (s : String) (p : ℕ) : Prop :=
  ∃ pre frac : List Char, s.data = pre ++ '.' :: frac ∧ frac.length = p ∧
    (∀ c ∈ frac, c.isDigit = true) ∧ '.' ∉ pre

/-- `s` is a base-10 integer with no padding: an optional minus sign, then
digits only, with no leading zero. -/
def isPlainInt (s : String) : Prop :=
  ∃ ds : List Char, (s.data = ds ∨ s.data = '-' :: ds) ∧ ds ≠ [] ∧
    (∀ c ∈ ds, c.isDigit = true) ∧ (ds.head? = some '0' → ds = ['0'])

/-- Row entry `i` exists and is a fixed-point decimal of precision `p`. -/
def entryFixed (row : List String) (i p : ℕ) : Prop :=
  ∃ s, row[i]? = some s ∧ isFixedPoint s p

/-- Row entry `i` exists and is a plainly rendered integer. -/
def entryInt (row : List String) (i : ℕ) : Prop :=
  ∃ s, row[i]? = some s ∧ isPlainInt s

/-! ## Claims -/

/-- C2: The header row of the fused CSV is exactly the 22-column list
`timestamp_ns, cam_frame_id, cam_file_path, cam_width, cam_height,
lidar_packet_id, lidar_num_points, lidar_cloud_path, gps_lat, gps_lon,
gps_alt, gps_speed, gps_heading, imu_ax, imu_ay, imu_az, imu_gx, imu_gy,
imu_gz, radar_range, radar_azimuth, radar_velocity`, in that order:
`FusedRecord.CSVHeader` returns exactly this list and it equals the
`SchemaColumns` entry for the fused sensor. -/
theorem c2_fused_header_exact :
    FusedRecord.CSVHeader =
      ["timestamp_ns", "cam_frame_id", "cam_file_path", "cam_width",
       "cam_height", "lidar_packet_id", "lidar_num_points",
       "lidar_cloud_path", "gps_lat", "gps_lon", "gps_alt", "gps_speed",
       "gps_heading", "imu_ax", "imu_ay", "imu_az", "imu_gx", "imu_gy",
       "imu_gz", "radar_range", "radar_azimuth", "radar_velocity"] ∧
    FusedRecord.CSVHeader = SchemaColumns .SensorFused ∧
    FusedRecord.CSVHeader.length = 22 :=
  ⟨rfl, rfl, rfl⟩

/-- C3: For every `FusedRecord`, `CSVRow()` returns a list whose length
equals the 22-column fused header length, and for every component that is
nil, every column reserved for that component is the empty string (camera 4
columns at indices 1–4, lidar 3 at 5–7, gps 5 at 8–12, imu 6 at 13–18,
radar 3 at 19–21) — never a sentinel such as `"null"`. -/
theorem c3_fused_row_length_and_missing (f : FusedRecord) :
    f.CSVRow.length = FusedRecord.CSVHeader.length ∧
    f.CSVRow.length = 22 ∧
    (f.Camera = none → (f.CSVRow.drop 1).take 4 = ["", "", "", ""]) ∧
    (f.Lidar = none → (f.CSVRow.drop 5).take 3 = ["", "", ""]) ∧
    (f.GPS = none → (f.CSVRow.drop 8).take 5 = ["", "", "", "", ""]) ∧
    (f.IMU = none → (f.CSVRow.drop 13).take 6 = ["", "", "", "", "", ""]) ∧
    (f.Radar = none → (f.CSVRow.drop 19).take 3 = ["", "", ""]) := by
  obtain ⟨ts, cam, lid, gps, imu, rad⟩ := f
  cases cam <;> cases lid <;> cases gps <;> cases imu <;> cases rad <;>
    simp [FusedRecord.CSVRow, FusedRecord.CSVHeader]

/-- Witness for C3 at a concrete all-nil record. -/
theorem c3_witness :
    (FusedRecord.mk 7 none none none none none).CSVRow.length = 22 ∧
    ((FusedRecord.mk 7 none none none none none).CSVRow.drop 1).take 4 =
      ["", "", "", ""] ∧
    ((FusedRecord.mk 7 none none none none none).CSVRow.drop 19).take 3 =
      ["", "", ""] :=
  ⟨(c3_fused_row_length_and_missing ⟨7, none, none, none, none, none⟩).2.1,
   (c3_fused_row_length_and_missing
      ⟨7, none, none, none, none, none⟩).2.2.1 rfl,
   (c3_fused_row_length_and_missing
      ⟨7, none, none, none, none, none⟩).2.2.2.2.2.2 rfl⟩

/-- C4: For every producer and every record it produces, the send onto its
output queue is non-blocking and exactly one of the two counters changes: if
the queue has free space the record is enqueued and `produced` increments by
1; if the queue is full the record is discarded (not enqueued) and `dropped`
increments by 1. -/
theorem c4_nonblocking_send {α : Type} (cap : ℕ) (st : ProducerState α)
    (x : α) :
    (nonBlockingSend cap st x).produced + (nonBlockingSend cap st x).dropped
        = st.produced + st.dropped + 1 ∧
    (st.queue.length < cap →
      (nonBlockingSend cap st x).queue = st.queue ++ [x] ∧
      (nonBlockingSend cap st x).produced = st.produced + 1 ∧
      (nonBlockingSend cap st x).dropped = st.dropped) ∧
    (¬ st.queue.length < cap →
      (nonBlockingSend cap st x).queue = st.queue ∧
      (nonBlockingSend cap st x).dropped = st.dropped + 1 ∧
      (nonBlockingSend cap st x).produced = st.produced) := by
  by_cases h : st.queue.length < cap <;>
    simp [nonBlockingSend, h] <;> omega

/-- Witness for C4: a send into a free queue and one into a full queue. -/
theorem c4_witness :
    (nonBlockingSend 1 (ProducerState.mk ([] : List ℕ) 0 0) 5).queue = [5] ∧
    (nonBlockingSend 1 (ProducerState.mk ([] : List ℕ) 0 0) 5).produced = 1 ∧
    (nonBlockingSend 1 (ProducerState.mk [9] 3 4) 5).queue = [9] ∧
    (nonBlockingSend 1 (ProducerState.mk ([9] : List ℕ) 3 4) 5).dropped = 5 :=
  ⟨((c4_nonblocking_send 1 ⟨[], 0, 0⟩ 5).2.1 (by decide)).1,
   ((c4_nonblocking_send 1 ⟨[], 0, 0⟩ 5).2.1 (by decide)).2.1,
   ((c4_nonblocking_send 1 ⟨[9], 3, 4⟩ 5).2.2 (by decide)).1,
   ((c4_nonblocking_send 1 ⟨[9], 3, 4⟩ 5).2.2 (by decide)).2.1⟩

/-- C8: Flush is idempotent: for every `CSVWriter` state, two consecutive
`flush()` calls with no intervening `write_row` produce the same file
contents and file size as a single `flush()`, and leave the row counter
unchanged. -/
theorem c8_flush_idempotent (w : CSVWriterState) :
    CSVWriter.Flush (CSVWriter.Flush w) = CSVWriter.Flush w ∧
    (CSVWriter.Flush (CSVWriter.Flush w)).fileData =
      (CSVWriter.Flush w).fileData ∧
    (CSVWriter.Flush (CSVWriter.Flush w)).fileData.length =
      (CSVWriter.Flush w).fileData.length ∧
    (CSVWriter.Flush w).rows = w.rows := by
  obtain ⟨a, b, c, n⟩ := w
  refine ⟨?_, ?_, ?_, rfl⟩ <;> simp [CSVWriter.Flush]

/-- C10: `CSVWriter.WriteRow` unconditionally increments the row counter,
ignoring the CSV encoder's error, so after any sequence of `n` `WriteRow`
calls — however many encodes failed — `Rows()` returns exactly `n`; the
header written at construction is not counted. -/
theorem c10_rows_equals_writerow_count (enc : List String → Option String)
    (writeHeader : Bool) (header : List String) (rs : List (List String)) :
    CSVWriter.Rows
        (rs.foldl (CSVWriter.WriteRow enc) (NewCSVWriter enc writeHeader header))
      = rs.length ∧
    CSVWriter.Rows (NewCSVWriter enc writeHeader header) = 0 := by
  have step : ∀ (w : CSVWriterState) (row : List String),
      (CSVWriter.WriteRow enc w row).rows = w.rows + 1 := by
    intro w row
    cases h : enc row <;> simp [CSVWriter.WriteRow, h]
  have fold : ∀ (l : List (List String)) (w : CSVWriterState),
      (l.foldl (CSVWriter.WriteRow enc) w).rows = w.rows + l.length := by
    intro l
    induction l with
    | nil => intro w; simp
    | cons r l ih =>
        intro w
        simp [List.foldl_cons, ih, step]
        omega
  refine ⟨?_, rfl⟩
  simp [CSVWriter.Rows, fold, NewCSVWriter]

/-- One fusion event can raise the "included + currently-celled" count of a
sample only by the number of times the event drains that sample. -/
theorem fusionStep_bound {α : Type} [DecidableEq α] (st : FusionState α)
    (e : FusionEvent α) (s : Sensor) (x : α) :
    includedCount (fusionStep st e) s x + cellHolds (fusionStep st e) s x ≤
      includedCount st s x + cellHolds st s x + drainCount [e] s x := by
  cases e with
  | drain s' y =>
      have hinc : includedCount (fusionStep st (.drain s' y)) s x
          = includedCount st s x := rfl
      have hcell : cellHolds (fusionStep st (.drain s' y)) s x
          = if (if s = s' then some y else st.cells s) = some x then 1 else 0 := by
        simp [cellHolds, fusionStep]
      rw [hinc, hcell]
      have hdc : drainCount [FusionEvent.drain s' y] s x
          = if s' = s ∧ y = x then 1 else 0 := by
        simp only [drainCount, List.filter_singleton, decide_eq_true_eq,
          FusionEvent.drain.injEq]
        by_cases h1 : s' = s <;> by_cases h2 : y = x <;> simp [h1, h2]
      rw [hdc]
      by_cases hs : s = s' <;> by_cases hy : y = x <;>
        simp [hs, hy] <;>
        first
          | omega
          | (split <;> omega)
          | (unfold cellHolds; split <;> omega)
  | tick sent =>
      cases sent <;>
        simp [fusionStep, includedCount, cellHolds, drainCount,
          List.filter_append]
      by_cases h : st.cells s = some x <;> simp [List.filter_singleton, h]

/-- Folding the fusion step over a trace keeps the inclusion count bounded
by the drain count. -/
theorem fusionFoldl_bound {α : Type} [DecidableEq α]
    (t : List (FusionEvent α)) (st : FusionState α) (s : Sensor) (x : α) :
    includedCount (t.foldl fusionStep st) s x +
        cellHolds (t.foldl fusionStep st) s x ≤
      includedCount st s x + cellHolds st s x + drainCount t s x := by
  induction t generalizing st with
  | nil => simp [drainCount]
  | cons e t ih =>
      have h1 := ih (fusionStep st e)
      have h2 := fusionStep_bound st e s x
      have h3 : drainCount (e :: t) s x = drainCount [e] s x + drainCount t s x := by
        simp [drainCount, List.filter_cons]
        split <;> simp <;> omega
      simp only [List.foldl_cons]
      omega

/-- C1: For every sensor, each sample that the merge task includes as a
component of an emitted `FusedRecord` appears in at most one `FusedRecord`
of the fused stream: on every alignment tick the merge task reads all five
latest-value cells into the new `FusedRecord` and then sets all five cells
to null before releasing the mutex, so no sample already included in a
prior tick can be included again.  Formally: over any interleaving of drain
and tick events in which sample `x` is drained into sensor `s`'s cell at
most once, at most one emitted record carries `x` as its `s` component. -/
theorem c1_sample_included_at_most_once {α : Type} [DecidableEq α]
    (t : List (FusionEvent α)) (s : Sensor) (x : α)
    (h : drainCount t s x ≤ 1) :
    includedCount (fusionRun t) s x ≤ 1 := by
  have hb := fusionFoldl_bound t (fusionInit α) s x
  have h0 : includedCount (fusionInit α) s x = 0 := by
    simp [includedCount, fusionInit]
  have h1 : cellHolds (fusionInit α) s x = 0 := by
    simp [cellHolds, fusionInit]
  unfold fusionRun
  omega

/-- Witness for C1: a trace draining sample 7 once into the gps cell,
followed by two sent ticks — the second tick does not re-emit it. -/
theorem c1_witness :
    drainCount [FusionEvent.drain Sensor.gps (7 : ℕ), FusionEvent.tick true,
        FusionEvent.drain Sensor.gps 8, FusionEvent.tick true]
      Sensor.gps 7 ≤ 1 ∧
    includedCount
        (fusionRun [FusionEvent.drain Sensor.gps (7 : ℕ),
          FusionEvent.tick true, FusionEvent.drain Sensor.gps 8,
          FusionEvent.tick true])
      Sensor.gps 7 ≤ 1 :=
  ⟨by decide,
   c1_sample_included_at_most_once
     [FusionEvent.drain Sensor.gps 7, FusionEvent.tick true,
      FusionEvent.drain Sensor.gps 8, FusionEvent.tick true]
     Sensor.gps 7 (by decide)⟩

/-- `capture` assigns the passed sequence number as the frame id in both
branches. -/
theorem cameraCapture_FrameID (width height : ℤ) (format : String)
    (sim : Bool) (ts : ℤ) (sz : ℕ) (seq : ℕ) :
    (cameraCapture width height format sim ts sz seq).FrameID = seq := by
  unfold cameraCapture
  split <;> rfl

/-- `readPacket` assigns the passed sequence number as the packet id in both
branches. -/
theorem lidarReadPacket_PacketID (model : String) (sim : Bool) (ts : ℤ)
    (nPts : ℤ) (seq : ℕ) :
    (lidarReadPacket model sim ts nPts seq).PacketID = seq := by
  unfold lidarReadPacket
  split <;> rfl

/-- `readTarget` assigns the passed counter as the target id in both
branches. -/
theorem radarReadTarget_TargetID (sim : Bool) (ts : ℤ)
    (rng az el vel rcs : ℚ) (id : ℤ) :
    (radarReadTarget sim ts rng az el vel rcs id).TargetID = id := by
  unfold radarReadTarget
  split <;> rfl

/-- Frame ids of the frames created over `n` ticks starting from counter
value `seq`. -/
theorem cameraCreated_map_id (width height : ℤ) (format : String)
    (sim : Bool) (tss : ℕ → ℤ) (szs : ℕ → ℕ) :
    ∀ (n seq : ℕ),
      (cameraCreated width height format sim tss szs seq n).map
          CameraFrame.FrameID
        = (List.range n).map (· + seq) := by
  intro n
  induction n with
  | zero => intro seq; simp [cameraCreated]
  | succ n ih =>
      intro seq
      simp only [cameraCreated, List.map_cons, cameraCapture_FrameID,
        ih (seq + 1), List.range_succ_eq_map, List.map_map]
      refine congrArg₂ _ (by omega) ?_
      refine List.map_congr_left ?_
      intro i _
      simp [Function.comp]
      omega

/-- Packet ids of the packets created over `n` ticks starting from `seq`. -/
theorem lidarCreated_map_id (model : String) (sim : Bool) (tss : ℕ → ℤ)
    (npts : ℕ → ℤ) :
    ∀ (n seq : ℕ),
      (lidarCreated model sim tss npts seq n).map LidarPacket.PacketID
        = (List.range n).map (· + seq) := by
  intro n
  induction n with
  | zero => intro seq; simp [lidarCreated]
  | succ n ih =>
      intro seq
      simp only [lidarCreated, List.map_cons, lidarReadPacket_PacketID,
        ih (seq + 1), List.range_succ_eq_map, List.map_map]
      refine congrArg₂ _ (by omega) ?_
      refine List.map_congr_left ?_
      intro i _
      simp [Function.comp]
      omega

/-- Target ids of the targets created over `n` ticks starting from `id`. -/
theorem radarCreated_map_id (sim : Bool) (tss : ℕ → ℤ)
    (draws : ℕ → ℚ × ℚ × ℚ × ℚ × ℚ) :
    ∀ (n id : ℕ),
      (radarCreated sim tss draws id n).map RadarTarget.TargetID
        = (List.range n).map (fun i => ((i + id : ℕ) : ℤ)) := by
  intro n
  induction n with
  | zero => intro id; simp [radarCreated]
  | succ n ih =>
      intro id
      simp only [radarCreated, List.map_cons, radarReadTarget_TargetID,
        ih (id + 1), List.range_succ_eq_map, List.map_map]
      refine congrArg₂ _ (by omega) ?_
      refine List.map_congr_left ?_
      intro i _
      simp [Function.comp]
      omega

/-- C5: Within one session, each producer's identifier sequence (camera
`frame_id`, lidar `packet_id`, radar `target_id`) starts at 0 and is
strictly increasing over the records that producer creates, in creation
order; identifiers are assigned per producer from a local sequence counter
incremented once per created record.  Formally: across any `n` ticks of the
reader loops (whatever the timestamps and random draws), the created id
sequences are exactly `0, 1, …, n-1`, hence strictly increasing from 0. -/
theorem c5_identifier_sequences (width height : ℤ) (format model : String)
    (sim : Bool) (ctss ltss rtss : ℕ → ℤ) (szs : ℕ → ℕ) (npts : ℕ → ℤ)
    (draws : ℕ → ℚ × ℚ × ℚ × ℚ × ℚ) (n : ℕ) :
    (cameraCreated width height format sim ctss szs 0 n).map
        CameraFrame.FrameID = List.range n ∧
    (lidarCreated model sim ltss npts 0 n).map LidarPacket.PacketID
        = List.range n ∧
    (radarCreated sim rtss draws 0 n).map RadarTarget.TargetID
        = (List.range n).map (fun i : ℕ => (i : ℤ)) ∧
    List.Pairwise (· < ·)
      ((cameraCreated width height format sim ctss szs 0 n).map
        CameraFrame.FrameID) ∧
    List.Pairwise (· < ·)
      ((lidarCreated model sim ltss npts 0 n).map LidarPacket.PacketID) ∧
    List.Pairwise (· < ·)
      ((radarCreated sim rtss draws 0 n).map RadarTarget.TargetID) := by
  have hc : (cameraCreated width height format sim ctss szs 0 n).map
      CameraFrame.FrameID = List.range n := by
    simpa using cameraCreated_map_id width height format sim ctss szs n 0
  have hl : (lidarCreated model sim ltss npts 0 n).map LidarPacket.PacketID
      = List.range n := by
    simpa using lidarCreated_map_id model sim ltss npts n 0
  have hr : (radarCreated sim rtss draws 0 n).map RadarTarget.TargetID
      = (List.range n).map (fun i : ℕ => (i : ℤ)) := by
    have := radarCreated_map_id sim rtss draws n 0
    simp only [Nat.add_zero] at this
    exact this
  refine ⟨hc, hl, hr, ?_, ?_, ?_⟩
  · rw [hc]
    exact List.pairwise_lt_range n
  · rw [hl]
    exact List.pairwise_lt_range n
  · rw [hr]
    refine List.pairwise_map.mpr ?_
    refine (List.pairwise_lt_range n).imp ?_
    intro a b h
    exact_mod_cast h

/-- C6: If `overwrite` is false and the computed session directory already
exists, recording-controller construction returns an error containing the
session path and performs no file-system modification: the directory-exists
check happens before the `MkdirAll` call and before any CSV writer is
opened, so on this error nothing is created or truncated. -/
theorem c6_overwrite_guard (fs : FS) (st : StorageCfg)
    (sens : SensorsEnabled) (sess : String)
    (hov : st.overwrite = false)
    (hex : fs.exists (st.baseDir ++ "/" ++ sess) = true) :
    (NewRecordingController fs st sens sess).1 =
      .error ("session dir " ++ (st.baseDir ++ "/" ++ sess) ++
        " already exists (overwrite=false)") ∧
    (∃ pre post, (NewRecordingController fs st sens sess).1 =
      .error (pre ++ (st.baseDir ++ "/" ++ sess) ++ post)) ∧
    (NewRecordingController fs st sens sess).2 = fs ∧
    (NewRecordingController fs st sens sess).2.mutations = fs.mutations := by
  have hguard : (NewRecordingController fs st sens sess) =
      (.error ("session dir " ++ (st.baseDir ++ "/" ++ sess) ++
        " already exists (overwrite=false)"), fs) := by
    unfold NewRecordingController
    rw [if_pos]
    exact ⟨by simp [hov], hex⟩
  refine ⟨by rw [hguard], ⟨"session dir ",
    " already exists (overwrite=false)", by rw [hguard]⟩, by rw [hguard],
    by rw [hguard]⟩

/-- Witness for C6: a pre-existing session directory with overwrite
disabled. -/
theorem c6_witness :
    (NewRecordingController
        (FS.mk ["/data/drive_20260214_153045"] [])
        (StorageCfg.mk "/data" false 256 true "frames" false)
        (SensorsEnabled.mk true true true true true)
        "drive_20260214_153045").1 =
      .error ("session dir /data/drive_20260214_153045" ++
        " already exists (overwrite=false)") ∧
    (NewRecordingController
        (FS.mk ["/data/drive_20260214_153045"] [])
        (StorageCfg.mk "/data" false 256 true "frames" false)
        (SensorsEnabled.mk true true true true true)
        "drive_20260214_153045").2.mutations = [] := by
  have h := c6_overwrite_guard
    (FS.mk ["/data/drive_20260214_153045"] [])
    (StorageCfg.mk "/data" false 256 true "frames" false)
    (SensorsEnabled.mk true true true true true)
    "drive_20260214_153045" rfl (by decide)
  exact ⟨h.1, h.2.2.2⟩

/-- The camera block leaves the already-written fused rows untouched. -/
theorem writeCameraPart_fusedRows (rc : RecCtrl) (sens : SensorsEnabled)
    (o : RecOut) (r : FusedRecord) :
    (writeCameraPart rc sens o r).1.fusedRows = o.fusedRows := by
  obtain ⟨ts, cam, lid, gps, imu, rad⟩ := r
  unfold writeCameraPart
  cases cam <;> dsimp only <;> first | rfl | (split_ifs <;> rfl)

/-- The lidar block touches only the lidar rows. -/
theorem writeLidarPart_preserves (sens : SensorsEnabled) (o : RecOut)
    (r : FusedRecord) :
    (writeLidarPart sens o r).fusedRows = o.fusedRows ∧
    (writeLidarPart sens o r).cameraRows = o.cameraRows := by
  obtain ⟨ts, cam, lid, gps, imu, rad⟩ := r
  unfold writeLidarPart
  cases lid <;> dsimp only <;> first | exact ⟨rfl, rfl⟩ | (split_ifs <;> exact ⟨rfl, rfl⟩)

/-- The gps block touches only the gps rows. -/
theorem writeGPSPart_preserves (sens : SensorsEnabled) (o : RecOut)
    (r : FusedRecord) :
    (writeGPSPart sens o r).fusedRows = o.fusedRows ∧
    (writeGPSPart sens o r).cameraRows = o.cameraRows := by
  obtain ⟨ts, cam, lid, gps, imu, rad⟩ := r
  unfold writeGPSPart
  cases gps <;> dsimp only <;> first | exact ⟨rfl, rfl⟩ | (split_ifs <;> exact ⟨rfl, rfl⟩)

/-- The imu block touches only the imu rows. -/
theorem writeIMUPart_preserves (sens : SensorsEnabled) (o : RecOut)
    (r : FusedRecord) :
    (writeIMUPart sens o r).fusedRows = o.fusedRows ∧
    (writeIMUPart sens o r).cameraRows = o.cameraRows := by
  obtain ⟨ts, cam, lid, gps, imu, rad⟩ := r
  unfold writeIMUPart
  cases imu <;> dsimp only <;> first | exact ⟨rfl, rfl⟩ | (split_ifs <;> exact ⟨rfl, rfl⟩)

/-- The radar block touches only the radar rows. -/
theorem writeRadarPart_preserves (sens : SensorsEnabled) (o : RecOut)
    (r : FusedRecord) :
    (writeRadarPart sens o r).fusedRows = o.fusedRows ∧
    (writeRadarPart sens o r).cameraRows = o.cameraRows := by
  obtain ⟨ts, cam, lid, gps, imu, rad⟩ := r
  unfold writeRadarPart
  cases rad <;> dsimp only <;> first | exact ⟨rfl, rfl⟩ | (split_ifs <;> exact ⟨rfl, rfl⟩)

/-- With frame saving active, the camera block appends exactly the camera
row of the frame whose `FilePath` was just assigned. -/
theorem writeCameraPart_cameraRows_save (rc : RecCtrl)
    (sens : SensorsEnabled) (o : RecOut) (r : FusedRecord)
    (cam : CameraFrame) (hc : r.Camera = some cam)
    (hcam : sens.camera = true) (hsave : rc.saveFrames = true)
    (hjpeg : cam.JPEG.length > 0) :
    (writeCameraPart rc sens o r).1.cameraRows = o.cameraRows ++
      [CameraFrame.CSVRow { cam with FilePath :=
        rc.savePath ++ "/" ++ (itoa64 cam.TimestampNs ++ ".jpg") }] := by
  unfold writeCameraPart
  rw [hc]
  dsimp only
  rw [if_pos hcam,
    if_pos (⟨hsave, hjpeg⟩ : rc.saveFrames = true ∧ cam.JPEG.length > 0)]

/-- C7: In `RecordingController.writeRecord`, the fused CSV row is written
before `Camera.FilePath` is assigned, so for every fused record the
`cam_file_path` field written to fused.csv is the camera frame's file path
as it was before frame saving (the empty string for simulated frames), even
when `save_frames` is enabled; only the subsequently written camera.csv row
carries the assigned `<save_path>/<ts>.jpg` path. -/
theorem c7_fused_row_precedes_path_assignment (rc : RecCtrl)
    (sens : SensorsEnabled) (o : RecOut) (r : FusedRecord)
    (cam : CameraFrame) (hc : r.Camera = some cam) :
    (writeRecord rc sens o r).1.fusedRows = o.fusedRows ++ [r.CSVRow] ∧
    r.CSVRow.take 3
      = [itoa64 r.TimestampNs, utoa64 cam.FrameID, cam.FilePath] ∧
    (sens.camera = true → rc.saveFrames = true → cam.JPEG.length > 0 →
      (writeRecord rc sens o r).1.cameraRows = o.cameraRows ++
        [CameraFrame.CSVRow { cam with FilePath :=
          rc.savePath ++ "/" ++ (itoa64 cam.TimestampNs ++ ".jpg") }] ∧
      (CameraFrame.CSVRow { cam with FilePath :=
          rc.savePath ++ "/" ++ (itoa64 cam.TimestampNs ++ ".jpg") }).take 6
        = [itoa64 cam.TimestampNs, utoa64 cam.FrameID, itoa cam.Width,
           itoa cam.Height, cam.Format,
           rc.savePath ++ "/" ++ (itoa64 cam.TimestampNs ++ ".jpg")]) := by
  refine ⟨?_, ?_, ?_⟩
  · show (writeRadarPart sens
        (writeIMUPart sens
          (writeGPSPart sens
            (writeLidarPart sens
              (writeCameraPart rc sens
                { o with fusedRows := o.fusedRows ++ [r.CSVRow] } r).1
              (writeCameraPart rc sens
                { o with fusedRows := o.fusedRows ++ [r.CSVRow] } r).2)
            (writeCameraPart rc sens
              { o with fusedRows := o.fusedRows ++ [r.CSVRow] } r).2)
          (writeCameraPart rc sens
            { o with fusedRows := o.fusedRows ++ [r.CSVRow] } r).2)
        (writeCameraPart rc sens
          { o with fusedRows := o.fusedRows ++ [r.CSVRow] } r).2).fusedRows
      = o.fusedRows ++ [r.CSVRow]
    rw [(writeRadarPart_preserves _ _ _).1, (writeIMUPart_preserves _ _ _).1,
      (writeGPSPart_preserves _ _ _).1, (writeLidarPart_preserves _ _ _).1,
      writeCameraPart_fusedRows]
  · obtain ⟨ts, rcam, lid, gps, imu, rad⟩ := r
    have hr : rcam = some cam := hc
    subst hr
    rfl
  · intro hcam hsave hjpeg
    refine ⟨?_, rfl⟩
    show (writeRadarPart sens
        (writeIMUPart sens
          (writeGPSPart sens
            (writeLidarPart sens
              (writeCameraPart rc sens
                { o with fusedRows := o.fusedRows ++ [r.CSVRow] } r).1
              (writeCameraPart rc sens
                { o with fusedRows := o.fusedRows ++ [r.CSVRow] } r).2)
            (writeCameraPart rc sens
              { o with fusedRows := o.fusedRows ++ [r.CSVRow] } r).2)
          (writeCameraPart rc sens
            { o with fusedRows := o.fusedRows ++ [r.CSVRow] } r).2)
        (writeCameraPart rc sens
          { o with fusedRows := o.fusedRows ++ [r.CSVRow] } r).2).cameraRows
      = o.cameraRows ++
        [CameraFrame.CSVRow { cam with FilePath :=
          rc.savePath ++ "/" ++ (itoa64 cam.TimestampNs ++ ".jpg") }]
    rw [(writeRadarPart_preserves _ _ _).2, (writeIMUPart_preserves _ _ _).2,
      (writeGPSPart_preserves _ _ _).2, (writeLidarPart_preserves _ _ _).2,
      writeCameraPart_cameraRows_save rc sens _ r cam hc hcam hsave hjpeg]

/-- Witness for C7: a simulated frame (empty `FilePath`) written with frame
saving on — the fused row keeps the empty path, camera.csv gets the
assigned one. -/
theorem c7_witness :
    (writeRecord (RecCtrl.mk "sess" true "sess/frames" "frames")
        (SensorsEnabled.mk true true true true true)
        (RecOut.mk [] [] [] [] [] [] [] 0)
        (FusedRecord.mk 100
          (some (CameraFrame.mk 100 0 1920 1080 "MJPEG" "" 3 [255, 216, 0]))
          none none none none)).1.cameraRows =
      [CameraFrame.CSVRow (CameraFrame.mk 100 0 1920 1080 "MJPEG"
        ("frames" ++ "/" ++ (itoa64 100 ++ ".jpg")) 3 [255, 216, 0])] ∧
    (FusedRecord.mk 100
        (some (CameraFrame.mk 100 0 1920 1080 "MJPEG" "" 3 [255, 216, 0]))
        none none none none).CSVRow.take 3
      = [itoa64 100, utoa64 0, ""] := by
  have h := c7_fused_row_precedes_path_assignment
    (RecCtrl.mk "sess" true "sess/frames" "frames")
    (SensorsEnabled.mk true true true true true)
    (RecOut.mk [] [] [] [] [] [] [] 0)
    (FusedRecord.mk 100
      (some (CameraFrame.mk 100 0 1920 1080 "MJPEG" "" 3 [255, 216, 0]))
      none none none none)
    (CameraFrame.mk 100 0 1920 1080 "MJPEG" "" 3 [255, 216, 0]) rfl
  exact ⟨(h.2.2 rfl rfl (by decide)).1, h.2.1⟩

/-- `Nat.digitChar` of a base-10 digit is a decimal digit character. -/
theorem digitChar_isDigit : ∀ d : ℕ, d < 10 → (Nat.digitChar d).isDigit = true := by
  decide

/-- `Nat.digitChar` of a base-10 digit is not a decimal point. -/
theorem digitChar_ne_dot : ∀ d : ℕ, d < 10 → Nat.digitChar d ≠ '.' := by
  decide

/-- `Nat.digitChar` of a non-zero base-10 digit is not the zero digit. -/
theorem digitChar_ne_zero : ∀ d : ℕ, d < 10 → d ≠ 0 → Nat.digitChar d ≠ '0' := by
  decide

/-- Elements of the base-10 digit expansion are below 10. -/
theorem natDigitsMSD_lt (n : ℕ) : ∀ d ∈ natDigitsMSD n, d < 10 := by
  intro d hd
  refine Nat.digits_lt_base (b := 10) (m := n) (by norm_num) ?_
  simpa [natDigitsMSD] using hd

/-- A rendered natural number is never the empty string. -/
theorem natRepr_ne_nil (n : ℕ) : (natRepr n).data ≠ [] := by
  unfold natRepr
  split
  · decide
  · next h =>
    simp [natDigitsMSD, Nat.digits_ne_nil_iff_ne_zero, h]

/-- A rendered natural number consists of digit characters only. -/
theorem natRepr_digits (n : ℕ) : ∀ c ∈ (natRepr n).data, c.isDigit = true := by
  unfold natRepr
  split
  · decide
  · intro c hc
    simp only [String.mk, List.mem_map] at hc
    obtain ⟨d, hd, rfl⟩ := hc
    exact digitChar_isDigit d (natDigitsMSD_lt n d hd)

/-- A rendered natural number contains no decimal point. -/
theorem natRepr_no_dot (n : ℕ) : ∀ c ∈ (natRepr n).data, c ≠ '.' := by
  unfold natRepr
  split
  · decide
  · intro c hc
    simp only [String.mk, List.mem_map] at hc
    obtain ⟨d, hd, rfl⟩ := hc
    exact digitChar_ne_dot d (natDigitsMSD_lt n d hd)

/-- A rendered natural number has no leading zero ("0" itself apart). -/
theorem natRepr_head (n : ℕ) :
    (natRepr n).data.head? = some '0' → (natRepr n).data = ['0'] := by
  unfold natRepr
  split
  · intro _; rfl
  · next h =>
    intro hh
    exfalso
    simp only [String.mk] at hh
    rw [List.head?_map] at hh
    have hne : Nat.digits 10 n ≠ [] := Nat.digits_ne_nil_iff_ne_zero.mpr h
    have hlast : (natDigitsMSD n).head?
        = some ((Nat.digits 10 n).getLast hne) := by
      rw [natDigitsMSD, List.head?_reverse, List.getLast?_eq_getLast _ hne]
    rw [hlast] at hh
    simp only [Option.map_some'] at hh
    have hlt : (Nat.digits 10 n).getLast hne < 10 := by
      refine natDigitsMSD_lt n _ ?_
      rw [natDigitsMSD, List.mem_reverse]
      exact List.getLast_mem hne
    have hnz : (Nat.digits 10 n).getLast hne ≠ 0 :=
      Nat.getLast_digit_ne_zero 10 h
    exact digitChar_ne_zero _ hlt hnz (Option.some.inj hh)

/-- The fractional digits produced by `ftoa` are base-10 digits. -/
theorem fracDigits_lt (m p : ℕ) : ∀ d ∈ fracDigits m p, d < 10 := by
  intro d hd
  simp only [fracDigits, List.mem_map] at hd
  obtain ⟨i, _, rfl⟩ := hd
  exact Nat.mod_lt _ (by norm_num)

/-- Any sign/integer-part/point/fraction assembly is a fixed-point string
of the fraction's precision. -/
theorem fixedPoint_shape (sign : String) (hsign : ∀ c ∈ sign.data, c ≠ '.')
    (ip m p : ℕ) :
    isFixedPoint
      (sign ++ natRepr ip ++ "." ++
        String.mk ((fracDigits m p).map Nat.digitChar)) p := by
  refine ⟨(sign ++ natRepr ip).data, (fracDigits m p).map Nat.digitChar,
    ?_, ?_, ?_, ?_⟩
  · rw [String.data_append, String.data_append]
    rw [List.append_assoc]
    rfl
  · simp [fracDigits]
  · intro c hc
    simp only [List.mem_map] at hc
    obtain ⟨d, hd, rfl⟩ := hc
    exact digitChar_isDigit d (fracDigits_lt m p d hd)
  · intro hdot
    rw [String.data_append, List.mem_append] at hdot
    rcases hdot with h | h
    · exact hsign _ h rfl
    · exact natRepr_no_dot ip _ h rfl

/-- `ftoa` with non-zero precision `p` renders a fixed-point decimal with
exactly `p` digits after the point. -/
theorem ftoa_isFixedPoint (v : ℚ) (p : ℕ) (hp : p ≠ 0) :
    isFixedPoint (ftoa v p) p := by
  unfold ftoa
  dsimp only
  rw [if_neg hp]
  apply fixedPoint_shape
  intro c hc
  split at hc
  · have h : c = '-' := by simpa using hc
    subst h
    decide
  · simp at hc

/-- `intRepr` (hence `itoa` and `itoa64`) renders with no padding. -/
theorem intRepr_isPlainInt (v : ℤ) : isPlainInt (intRepr v) := by
  unfold intRepr
  split
  · refine ⟨(natRepr v.natAbs).data, Or.inr ?_, natRepr_ne_nil _,
      natRepr_digits _, natRepr_head _⟩
    rw [String.data_append]
    rfl
  · exact ⟨(natRepr v.natAbs).data, Or.inl rfl, natRepr_ne_nil _,
      natRepr_digits _, natRepr_head _⟩

/-- `natRepr` (hence `utoa64`) renders with no padding. -/
theorem natRepr_isPlainInt (n : ℕ) : isPlainInt (natRepr n) :=
  ⟨(natRepr n).data, Or.inl rfl, natRepr_ne_nil n, natRepr_digits n,
   natRepr_head n⟩

/-- C9: Every floating-point field is rendered to CSV in fixed-point
decimal with exactly the specified precision: latitude/longitude 9 decimal
places, altitude 3, speed 4, heading, HDOP, RCS, rotation_deg and radar
azimuth 2, accel and gyro axes 6, magnetometer axes 4, temperature 2, radar
range and velocity 3; integer fields are rendered with no padding. -/
theorem c9_numeric_formatting (g : GPSData) (d : IMUData) (r : RadarTarget)
    (l : LidarPacket) :
    entryFixed g.CSVRow 1 9 ∧ entryFixed g.CSVRow 2 9 ∧
    entryFixed g.CSVRow 3 3 ∧ entryFixed g.CSVRow 4 4 ∧
    entryFixed g.CSVRow 5 2 ∧ entryFixed g.CSVRow 6 2 ∧
    entryInt g.CSVRow 0 ∧ entryInt g.CSVRow 7 ∧ entryInt g.CSVRow 8 ∧
    entryFixed d.CSVRow 1 6 ∧ entryFixed d.CSVRow 2 6 ∧
    entryFixed d.CSVRow 3 6 ∧ entryFixed d.CSVRow 4 6 ∧
    entryFixed d.CSVRow 5 6 ∧ entryFixed d.CSVRow 6 6 ∧
    entryFixed d.CSVRow 7 4 ∧ entryFixed d.CSVRow 8 4 ∧
    entryFixed d.CSVRow 9 4 ∧ entryFixed d.CSVRow 10 2 ∧
    entryInt d.CSVRow 0 ∧
    entryFixed r.CSVRow 2 3 ∧ entryFixed r.CSVRow 3 2 ∧
    entryFixed r.CSVRow 5 3 ∧ entryFixed r.CSVRow 6 2 ∧
    entryInt r.CSVRow 0 ∧ entryInt r.CSVRow 1 ∧
    entryFixed l.CSVRow 4 2 ∧
    entryInt l.CSVRow 0 ∧ entryInt l.CSVRow 1 ∧ entryInt l.CSVRow 2 ∧
    entryInt l.CSVRow 6 :=
  ⟨⟨_, rfl, ftoa_isFixedPoint _ _ (by decide)⟩,
   ⟨_, rfl, ftoa_isFixedPoint _ _ (by decide)⟩,
   ⟨_, rfl, ftoa_isFixedPoint _ _ (by decide)⟩,
   ⟨_, rfl, ftoa_isFixedPoint _ _ (by decide)⟩,
   ⟨_, rfl, ftoa_isFixedPoint _ _ (by decide)⟩,
   ⟨_, rfl, ftoa_isFixedPoint _ _ (by decide)⟩,
   ⟨_, rfl, intRepr_isPlainInt _⟩,
   ⟨_, rfl, intRepr_isPlainInt _⟩,
   ⟨_, rfl, intRepr_isPlainInt _⟩,
   ⟨_, rfl, ftoa_isFixedPoint _ _ (by decide)⟩,
   ⟨_, rfl, ftoa_isFixedPoint _ _ (by decide)⟩,
   ⟨_, rfl, ftoa_isFixedPoint _ _ (by decide)⟩,
   ⟨_, rfl, ftoa_isFixedPoint _ _ (by decide)⟩,
   ⟨_, rfl, ftoa_isFixedPoint _ _ (by decide)⟩,
   ⟨_, rfl, ftoa_isFixedPoint _ _ (by decide)⟩,
   ⟨_, rfl, ftoa_isFixedPoint _ _ (by decide)⟩,
   ⟨_, rfl, ftoa_isFixedPoint _ _ (by decide)⟩,
   ⟨_, rfl, ftoa_isFixedPoint _ _ (by decide)⟩,
   ⟨_, rfl, ftoa_isFixedPoint _ _ (by decide)⟩,
   ⟨_, rfl, intRepr_isPlainInt _⟩,
   ⟨_, rfl, ftoa_isFixedPoint _ _ (by decide)⟩,
   ⟨_, rfl, ftoa_isFixedPoint _ _ (by decide)⟩,
   ⟨_, rfl, ftoa_isFixedPoint _ _ (by decide)⟩,
   ⟨_, rfl, ftoa_isFixedPoint _ _ (by decide)⟩,
   ⟨_, rfl, intRepr_isPlainInt _⟩,
   ⟨_, rfl, intRepr_isPlainInt _⟩,
   ⟨_, rfl, ftoa_isFixedPoint _ _ (by decide)⟩,
   ⟨_, rfl, intRepr_isPlainInt _⟩,
   ⟨_, rfl, natRepr_isPlainInt _⟩,
   ⟨_, rfl, intRepr_isPlainInt _⟩,
   ⟨_, rfl, intRepr_isPlainInt _⟩⟩

end SensorLogger
